import Mathlib

/-!
Verification development for the KeepStartingGear snapshot-restoration engine
(server side, `src/Models.ts` and `src/SnapshotRestorer.ts`).

The TypeScript code is shallowly embedded: JS objects become Lean structures,
JS arrays become `List`, JS `Map`/`Set` become association lists / string lists
with the same membership semantics, JS `string | undefined` becomes
`Option String` (with JS truthiness modelled explicitly where the code relies
on it), and the file system / JSON layer is abstracted into an environment
record whose fields stand for the results the collaborators deliver.
JS numbers on item state are only ever copied, never computed with, so they
are modelled by `Int`.
-/

namespace KSG

/-- JS truthiness of a `string | undefined` value: `undefined` and `""` are falsy. -/
def jsTruthy (o : Option String) : Bool := (o.getD "") != ""

/-- ASCII lower-casing of one character (`toLowerCase` on the ASCII slot and
version strings the engine compares). -/
def toLowerChar (c : Char) : Char :=
  if 'A' ≤ c && c ≤ 'Z' then Char.ofNat (c.toNat + 32) else c

/-- JS `s.toLowerCase()`. -/
def jsToLower (s : String) : String :=
  String.mk (s.data.map toLowerChar)

/-- JS `s.split(sep)` for a one-character separator (accumulator-passing over
the character list). -/
def jsSplitAux (sep : Char) : List Char → List Char → List String
  | [], acc => [String.mk acc.reverse]
  | c :: rest, acc =>
      if c == sep then String.mk acc.reverse :: jsSplitAux sep rest []
      else jsSplitAux sep rest (c :: acc)

/-- JS `s.split(sep)`. -/
def jsSplit (sep : Char) (s : String) : List String :=
  jsSplitAux sep s.data []

/-- `Set.add` on a set of strings modelled as a duplicate-free list. -/
def setAdd (s : List String) (x : String) : List String :=
  if s.contains x then s else s ++ [x]

/-- `Map.get` on a string-keyed map modelled as an association list. -/
def lookupPair {α : Type} (m : List (String × α)) (k : String) : Option α :=
  (m.find? (fun p => p.1 == k)).map (fun p => p.2)

/-- `Map.set` on a string-keyed map modelled as an association list. -/
def mapSet {α : Type} (m : List (String × α)) (k : String) (v : α) : List (String × α) :=
  if m.any (fun p => p.1 == k) then m.map (fun p => if p.1 == k then (k, v) else p)
  else m ++ [(k, v)]

-- ============================================================================
-- Data model (src/Models.ts)
-- ============================================================================

/-- `UpdFoldable` (Models.ts). -/
structure UpdFoldable where
  Folded : Bool
deriving DecidableEq, Repr

/-- `UpdMedKit` (Models.ts). -/
structure UpdMedKit where
  HpResource : Int
deriving DecidableEq, Repr

/-- `UpdRepairable` (Models.ts). -/
structure UpdRepairable where
  Durability : Int
  MaxDurability : Int
deriving DecidableEq, Repr

/-- `UpdResource` (Models.ts). -/
structure UpdResource where
  Value : Int
deriving DecidableEq, Repr

/-- `UpdFoodDrink` (Models.ts). -/
structure UpdFoodDrink where
  HpPercent : Int
deriving DecidableEq, Repr

/-- `UpdTag` (Models.ts). -/
structure UpdTag where
  Name : String
  Color : Int
deriving DecidableEq, Repr

/-- `UpdDogtag` (Models.ts). -/
structure UpdDogtag where
  AccountId : Option String
  ProfileId : Option String
  Nickname : Option String
  Side : Option String
  Level : Option Int
  Time : Option String
  Status : Option String
  KillerAccountId : Option String
  KillerProfileId : Option String
  KillerName : Option String
  WeaponName : Option String
deriving DecidableEq, Repr

/-- `UpdKey` (Models.ts). -/
structure UpdKey where
  NumberOfUsages : Int
deriving DecidableEq, Repr

/-- `UpdLight` (Models.ts). -/
structure UpdLight where
  IsActive : Bool
  SelectedMode : Int
deriving DecidableEq, Repr

/-- `UpdTogglable` (Models.ts). -/
structure UpdTogglable where
  On : Bool
deriving DecidableEq, Repr

/-- `UpdFireMode` (Models.ts). -/
structure UpdFireMode where
  FireMode : String
deriving DecidableEq, Repr

/-- `UpdSight` (Models.ts). -/
structure UpdSight where
  ScopesCurrentCalibPointIndexes : List Int
  ScopesSelectedModes : List Int
  SelectedScope : Int
deriving DecidableEq, Repr

/-- `ItemUpd` (Models.ts): the item state blob. The TypeScript interface
declares the 14 known optional sub-fields below; at runtime a JS object
parsed from JSON may additionally carry sub-field kinds outside the declared
list, which we keep opaquely in `extra` (name/value pairs). -/
structure ItemUpd where
  StackObjectsCount : Option Int
  SpawnedInSession : Option Bool
  Foldable : Option UpdFoldable
  MedKit : Option UpdMedKit
  Repairable : Option UpdRepairable
  Resource : Option UpdResource
  FoodDrink : Option UpdFoodDrink
  Tag : Option UpdTag
  Dogtag : Option UpdDogtag
  Key : Option UpdKey
  Light : Option UpdLight
  Togglable : Option UpdTogglable
  FireMode : Option UpdFireMode
  Sight : Option UpdSight
  extra : List (String × String)
deriving DecidableEq, Repr

/-- `ItemLocation` (Models.ts): grid position. -/
structure GridLocation where
  x : Int
  y : Int
  r : Int
  isSearched : Option Bool
deriving DecidableEq, Repr

/-- `location` field: grid object or cartridge ordinal — mutually exclusive. -/
inductive ItemLoc where
  | grid (g : GridLocation)
  | idx (n : Int)
deriving DecidableEq, Repr

/-- `SnapshotItem` / `ProfileItem` (Models.ts): both interfaces have exactly
these fields, so a single structure embeds both. A missing `_id`/`_tpl` on a
raw JS object is modelled as `""` (the code only ever tests them for JS
truthiness, which identifies `undefined` and `""`). -/
structure Item where
  _id : String
  _tpl : String
  parentId : Option String
  slotId : Option String
  location : Option ItemLoc
  upd : Option ItemUpd
deriving DecidableEq, Repr

/-- `InventorySnapshot` (Models.ts). The descriptive metadata fields
(sessionId, playerName, timestamp, location, ...) are never interpreted by
the restoration core and are omitted. -/
structure InventorySnapshot where
  items : List Item
  includedSlots : Option (List String)
  emptySlots : Option (List String)
  modVersion : Option String
deriving DecidableEq, Repr

/-- `RestoreResult` (Models.ts). -/
structure RestoreResult where
  success : Bool
  itemsAdded : Nat
  duplicatesSkipped : Nat
  nonManagedSkipped : Nat
  errorMessage : Option String
deriving DecidableEq, Repr

/-- `RestoreResultFactory.succeeded` (Models.ts). -/
def RestoreResult.succeeded (itemsAdded duplicatesSkipped nonManagedSkipped : Nat) :
    RestoreResult :=
  { success := true, itemsAdded := itemsAdded, duplicatesSkipped := duplicatesSkipped,
    nonManagedSkipped := nonManagedSkipped, errorMessage := none }

/-- `RestoreResultFactory.failed` (Models.ts). -/
def RestoreResult.failed (errorMessage : String) : RestoreResult :=
  { success := false, itemsAdded := 0, duplicatesSkipped := 0,
    nonManagedSkipped := 0, errorMessage := some errorMessage }

/-- `Constants.MOD_VERSION` (Constants.ts). -/
def MOD_VERSION : String := "1.1.0"

/-- `Constants.EQUIPMENT_TEMPLATE_ID` (Constants.ts). -/
def EQUIPMENT_TEMPLATE_ID : String := "55d7217a4bdc2d86028b456d"

/-- `ModConfig` (Constants.ts). -/
structure ModConfig where
  maxParentTraversalDepth : Nat
  maxFileReadRetries : Nat
  fileReadRetryDelayMs : Nat
  maxSnapshotFileSizeBytes : Nat
  verboseLogging : Bool
  minRestoreIntervalMs : Nat
deriving DecidableEq, Repr

-- ============================================================================
-- Models.ts utility functions
-- ============================================================================

/-- `deepCloneItemUpd` (Models.ts): builds a fresh object and copies each of
the 14 declared sub-fields; nested objects are rebuilt field by field
(`Dogtag` via object spread, `Sight` arrays element-wise). Sub-field kinds
outside the declared list are never assigned to the clone, so `extra` ends up
empty. -/
def deepCloneItemUpd : Option ItemUpd → Option ItemUpd
  | none => none
  | some upd => some
      { StackObjectsCount := upd.StackObjectsCount
        SpawnedInSession := upd.SpawnedInSession
        Foldable := upd.Foldable.map (fun f => { Folded := f.Folded })
        MedKit := upd.MedKit.map (fun m => { HpResource := m.HpResource })
        Repairable := upd.Repairable.map (fun r =>
          { Durability := r.Durability, MaxDurability := r.MaxDurability })
        Resource := upd.Resource.map (fun r => { Value := r.Value })
        FoodDrink := upd.FoodDrink.map (fun f => { HpPercent := f.HpPercent })
        Tag := upd.Tag.map (fun t => { Name := t.Name, Color := t.Color })
        Dogtag := upd.Dogtag.map (fun d =>
          { AccountId := d.AccountId, ProfileId := d.ProfileId, Nickname := d.Nickname,
            Side := d.Side, Level := d.Level, Time := d.Time, Status := d.Status,
            KillerAccountId := d.KillerAccountId, KillerProfileId := d.KillerProfileId,
            KillerName := d.KillerName, WeaponName := d.WeaponName })
        Key := upd.Key.map (fun k => { NumberOfUsages := k.NumberOfUsages })
        Light := upd.Light.map (fun l =>
          { IsActive := l.IsActive, SelectedMode := l.SelectedMode })
        Togglable := upd.Togglable.map (fun t => { On := t.On })
        FireMode := upd.FireMode.map (fun f => { FireMode := f.FireMode })
        Sight := upd.Sight.map (fun s =>
          { ScopesCurrentCalibPointIndexes := s.ScopesCurrentCalibPointIndexes.map id,
            ScopesSelectedModes := s.ScopesSelectedModes.map id,
            SelectedScope := s.SelectedScope })
        extra := [] }

/-- List-of-chars prefix test (helper for the substring checks below). -/
def startsW : List Char → List Char → Bool
  | [], _ => true
  | _ :: _, [] => false
  | a :: as, b :: bs => a == b && startsW as bs

/-- List-of-chars substring test (helper: `String.includes`). -/
def hasSub (pat : List Char) : List Char → Bool
  | [] => startsW pat []
  | c :: rest => startsW pat (c :: rest) || hasSub pat rest

/-- `isValidSessionId` (Models.ts). -/
def isValidSessionId (sessionId : String) : Bool :=
  if sessionId.length == 0 then false
  else if !(sessionId.data.all (fun c => c.isAlphanum || c == '_' || c == '-')) then false
  else if hasSub ['.', '.'] sessionId.data || hasSub ['/'] sessionId.data
      || hasSub ['\\'] sessionId.data || hasSub ['\x00'] sessionId.data then false
  else if sessionId.length > 128 then false
  else true

/-- The per-item loop of `validateSnapshot` (Models.ts), carrying the index
used in error messages. -/
def validateItemsFrom : Nat → List Item → Option String
  | _, [] => none
  | i, it :: rest =>
      if it._id == "" then some ("Item at index " ++ toString i ++ " has invalid _id")
      else if it._tpl == "" then some ("Item at index " ++ toString i ++ " has invalid _tpl")
      else validateItemsFrom (i + 1) rest

/-- `validateSnapshot` (Models.ts), on an already-parsed snapshot value.
Returns `none` for valid, `some error` otherwise. The null / non-object /
non-array branches live below this typed embedding (a parse that does not
produce a structurally well-typed snapshot is the `parseResult = none` case
of the environment). -/
def validateSnapshot (snap : InventorySnapshot) : Option String :=
  if snap.items.length == 0 then some "Snapshot is empty"
  else validateItemsFrom 0 snap.items

-- ============================================================================
-- SnapshotRestorer.ts: version validation
-- ============================================================================

/-- A parsed semantic version, as returned by `parseVersion`. -/
structure VersionParts where
  major : Int
  minor : Int
  patch : Int
deriving DecidableEq, Repr

/-- Numeric value of a list of decimal digits. -/
def digitsVal (l : List Char) : Nat :=
  l.foldl (fun a c => a * 10 + (c.toNat - 48)) 0

/-- JS `parseInt(s, 10)`: skip leading whitespace, optional sign, then the
maximal decimal-digit prefix; `NaN` (here `none`) if no digit follows. -/
def jsParseInt (s : String) : Option Int :=
  let l := s.data.dropWhile (fun c => c == ' ' || c == '\t' || c == '\n' || c == '\r')
  let signAndRest : Int × List Char :=
    match l with
    | '-' :: rest => (-1, rest)
    | '+' :: rest => (1, rest)
    | _ => (1, l)
  let ds := signAndRest.2.takeWhile Char.isDigit
  if ds.isEmpty then none
  else some (signAndRest.1 * (digitsVal ds : Int))

/-- `parseVersion` (SnapshotRestorer.ts). -/
def parseVersion (version : String) : Option VersionParts :=
  if version == "" then none
  else
    let parts := jsSplit '.' version
    if parts.length < 2 then none
    else
      match jsParseInt (parts.getD 0 ""), jsParseInt (parts.getD 1 "") with
      | some major, some minor =>
          let patch : Int :=
            if parts.length ≥ 3 then (jsParseInt (parts.getD 2 "")).getD 0 else 0
          some { major := major, minor := minor, patch := patch }
      | _, _ => none

/-- `validateSnapshotVersion` (SnapshotRestorer.ts), as a function of the
snapshot's `modVersion` field (the only snapshot field it reads). Returns
`true` for compatible. Note the code tests `!snapshot.modVersion`, so an
empty-string version is rejected like an absent one, and an unparseable
current or snapshot version is accepted. -/
def validateSnapshotVersion (modVersion : Option String) : Bool :=
  match parseVersion MOD_VERSION with
  | none => true
  | some currentParts =>
      if !(jsTruthy modVersion) then false
      else
        match parseVersion (modVersion.getD "") with
        | none => true
        | some snapParts =>
            if snapParts.major != currentParts.major then false
            else true

-- ============================================================================
-- SnapshotRestorer.ts: equipment discovery, slot sets, slot policy
-- ============================================================================

/-- `findEquipmentId` (SnapshotRestorer.ts): id of the first item whose
template is the Equipment container template. -/
def findEquipmentId (items : List Item) : Option String :=
  (items.find? (fun it => it._tpl == EQUIPMENT_TEMPLATE_ID)).map (fun it => it._id)

/-- The three slot sets built by `buildSlotSets` (SnapshotRestorer.ts). -/
structure SlotSets where
  includedSlots : List String
  snapshotSlots : List String
  emptySlots : List String
deriving DecidableEq, Repr

/-- `buildSlotSets` (SnapshotRestorer.ts). -/
def buildSlotSets (snap : InventorySnapshot) (snapshotEquipmentId : Option String) :
    SlotSets :=
  { includedSlots := (snap.includedSlots.getD []).map (fun s => jsToLower s)
    snapshotSlots :=
      (snap.items.filter (fun it =>
        it.parentId == snapshotEquipmentId && jsTruthy it.slotId)).map
        (fun it => jsToLower (it.slotId.getD ""))
    emptySlots := (snap.emptySlots.getD []).map (fun s => jsToLower s) }

/-- `isSlotManaged` (SnapshotRestorer.ts). -/
def isSlotManaged (slotId : String) (includedSlots snapshotSlots emptySlots : List String) :
    Bool :=
  let slotLower := jsToLower slotId
  if includedSlots.length > 0 then includedSlots.contains slotLower
  else snapshotSlots.contains slotLower || emptySlots.contains slotLower

-- ============================================================================
-- SnapshotRestorer.ts: item lookup and parent traversal
-- ============================================================================

/-- `buildItemLookup` (SnapshotRestorer.ts). -/
def buildItemLookup (items : List Item) : List (String × Item) :=
  items.foldl (fun m it => if it._id != "" then mapSet m it._id it else m) []

/-- The `while` loop of `traceRootSlot` (SnapshotRestorer.ts). `fuel` is the
remaining iteration budget (`maxDepth - depth`); `visited` is the cycle set.
Falling out of the loop — budget exhausted, missing parent link, or a parent
id absent from the lookup — returns `undefined` (`none`), as does the cycle
abort. -/
def traceAux (equipmentId : Option String) (lookup : List (String × Item)) :
    Nat → List String → Item → Option String
  | 0, _, _ => none
  | Nat.succ fuel, visited, cur =>
      if cur._id != "" && visited.contains cur._id then none
      else
        let visited' := if cur._id != "" then visited ++ [cur._id] else visited
        if cur.parentId == equipmentId then cur.slotId
        else if !(jsTruthy cur.parentId) then none
        else
          match lookupPair lookup (cur.parentId.getD "") with
          | none => none
          | some parent => traceAux equipmentId lookup fuel visited' parent

/-- `traceRootSlot` (SnapshotRestorer.ts). -/
def traceRootSlot (item : Item) (equipmentId : Option String)
    (lookup : List (String × Item)) (maxDepth : Nat) : Option String :=
  traceAux equipmentId lookup maxDepth [] item

/-- `buildRootSlotMap` (SnapshotRestorer.ts). -/
def buildRootSlotMap (items : List Item) (snapshotEquipmentId : Option String)
    (lookup : List (String × Item)) (maxDepth : Nat) : List (String × String) :=
  items.foldl (fun m it =>
    if it._id != "" then
      match traceRootSlot it snapshotEquipmentId lookup maxDepth with
      | some rootSlot => if rootSlot != "" then mapSet m it._id (jsToLower rootSlot) else m
      | none => m
    else m) []

-- ============================================================================
-- SnapshotRestorer.ts: item removal
-- ============================================================================

/-- Guard of the first scan of `removeManagedSlotItems`: direct child of the
profile Equipment container sitting in a managed slot. -/
def managedChildGuard (profileEquipmentId : String)
    (includedSlots snapshotSlots emptySlots : List String) (it : Item) : Bool :=
  it.parentId == some profileEquipmentId &&
    isSlotManaged (it.slotId.getD "") includedSlots snapshotSlots emptySlots

/-- First scan of `removeManagedSlotItems`: collect ids of managed direct
children of the Equipment container. -/
def initialRemovals (items : List Item) (profileEquipmentId : String)
    (includedSlots snapshotSlots emptySlots : List String) : List String :=
  items.foldl (fun s it =>
    if managedChildGuard profileEquipmentId includedSlots snapshotSlots emptySlots it
    then setAdd s it._id else s) []

/-- Guard of the nested-item scan: parent link is truthy, the parent is
already marked for removal, and the item itself is not yet marked. -/
def descGuard (s : List String) (it : Item) : Bool :=
  jsTruthy it.parentId && s.contains (it.parentId.getD "") && !(s.contains it._id)

/-- One pass of the nested-item scan (one iteration of the `while` loop of
`removeManagedSlotItems`); additions are visible to later items of the same
pass, as with the mutable JS `Set`. -/
def closurePass (items : List Item) (s : List String) : List String :=
  items.foldl (fun acc it => if descGuard acc it then acc ++ [it._id] else acc) s

/-- The `while (foundMore && iterations < maxDepth)` loop of
`removeManagedSlotItems`: at most `maxDepth` passes, stopping early when a
pass adds nothing. -/
def closureIter (items : List Item) : Nat → List String → List String
  | 0, s => s
  | Nat.succ n, s =>
      let t := closurePass items s
      if t = s then s else closureIter items n t

/-- The complete removal set computed by `removeManagedSlotItems`. -/
def removalSet (items : List Item) (profileEquipmentId : String)
    (includedSlots snapshotSlots emptySlots : List String) (maxDepth : Nat) :
    List String :=
  closureIter items maxDepth
    (initialRemovals items profileEquipmentId includedSlots snapshotSlots emptySlots)

/-- `removeManagedSlotItems` (SnapshotRestorer.ts). The in-place
read-index/write-index compaction keeps exactly the items whose id is not in
the removal set, in order — i.e. `List.filter`. Returns the surviving
collection and the removed count (`originalLength - items.length`). -/
def removeManagedSlotItems (items : List Item) (profileEquipmentId : String)
    (includedSlots snapshotSlots emptySlots : List String) (maxDepth : Nat) :
    List Item × Nat :=
  let toRemove :=
    removalSet items profileEquipmentId includedSlots snapshotSlots emptySlots maxDepth
  let survivors := items.filter (fun it => !(toRemove.contains it._id))
  (survivors, items.length - survivors.length)

-- ============================================================================
-- SnapshotRestorer.ts: item addition
-- ============================================================================

/-- `createItemFromSnapshot` (SnapshotRestorer.ts): same id/template/slot,
parent remapped from the snapshot Equipment id to the profile Equipment id
when it matches (and the snapshot Equipment id is truthy), location copied by
value, state blob deep-cloned. -/
def createItemFromSnapshot (snapshotItem : Item) (profileEquipmentId : String)
    (snapshotEquipmentId : Option String) : Item :=
  { _id := snapshotItem._id
    _tpl := snapshotItem._tpl
    slotId := snapshotItem.slotId
    parentId :=
      if jsTruthy snapshotEquipmentId && snapshotItem.parentId == snapshotEquipmentId
      then some profileEquipmentId
      else snapshotItem.parentId
    location := snapshotItem.location
    upd := deepCloneItemUpd snapshotItem.upd }

/-- The non-managed-slot skip condition of `addSnapshotItems`: the root slot
is known (truthy), `includedSlots` is non-empty, and the slot is not included. -/
def shouldSkipSlot (includedSlots : List String) (itemRootSlots : List (String × String))
    (id : String) : Bool :=
  match lookupPair itemRootSlots id with
  | some rootSlot =>
      rootSlot != "" && includedSlots.length > 0 && !(includedSlots.contains rootSlot)
  | none => false

/-- The per-item loop of `addSnapshotItems` (SnapshotRestorer.ts), with
explicit accumulators: collection being extended, set of existing ids, and
the added/duplicates/nonManaged counters. -/
def addLoop (profileEquipmentId : String) (snapshotEquipmentId : Option String)
    (includedSlots : List String) (itemRootSlots : List (String × String)) :
    List Item → List Item → List String → Nat → Nat → Nat →
    List Item × Nat × Nat × Nat
  | [], inv, _, a, d, n => (inv, a, d, n)
  | s :: rest, inv, ex, a, d, n =>
      if s._tpl == EQUIPMENT_TEMPLATE_ID then
        addLoop profileEquipmentId snapshotEquipmentId includedSlots itemRootSlots
          rest inv ex a d n
      else if s._id == "" || s._tpl == "" then
        addLoop profileEquipmentId snapshotEquipmentId includedSlots itemRootSlots
          rest inv ex a d n
      else if shouldSkipSlot includedSlots itemRootSlots s._id then
        addLoop profileEquipmentId snapshotEquipmentId includedSlots itemRootSlots
          rest inv ex a d (n + 1)
      else if ex.contains s._id then
        addLoop profileEquipmentId snapshotEquipmentId includedSlots itemRootSlots
          rest inv ex a (d + 1) n
      else
        let newItem := createItemFromSnapshot s profileEquipmentId snapshotEquipmentId
        addLoop profileEquipmentId snapshotEquipmentId includedSlots itemRootSlots
          rest (inv ++ [newItem]) (ex ++ [s._id]) (a + 1) d n

/-- `addSnapshotItems` (SnapshotRestorer.ts). Returns the extended collection
and the `added`/`duplicates`/`nonManaged` counters. -/
def addSnapshotItems (inventoryItems : List Item) (snapshotItems : List Item)
    (profileEquipmentId : String) (snapshotEquipmentId : Option String)
    (includedSlots : List String) (itemRootSlots : List (String × String))
    (existingItemIds : List String) : List Item × Nat × Nat × Nat :=
  addLoop profileEquipmentId snapshotEquipmentId includedSlots itemRootSlots
    snapshotItems inventoryItems existingItemIds 0 0 0

-- ============================================================================
-- SnapshotRestorer.ts: backup / rollback, rate limiting, restoration driver
-- ============================================================================

/-- The per-item deep copy of `createInventoryBackup` (SnapshotRestorer.ts):
scalar fields copied, location copied by value, state blob deep-cloned via
`deepCloneItemUpd`. -/
def cloneProfileItem (it : Item) : Item :=
  { _id := it._id, _tpl := it._tpl, parentId := it.parentId, slotId := it.slotId,
    location := it.location, upd := deepCloneItemUpd it.upd }

/-- `createInventoryBackup` (SnapshotRestorer.ts). -/
def createInventoryBackup (items : List Item) : List Item :=
  items.map cloneProfileItem

/-- `restoreFromBackup` (SnapshotRestorer.ts): truncate the collection and
push every backed-up item — the collection becomes the backup. -/
def restoreFromBackup (_items backup : List Item) : List Item :=
  backup

/-- `RateLimitEntry` (SnapshotRestorer.ts). -/
structure RateLimitEntry where
  lastAttempt : Int
  attemptCount : Nat
deriving DecidableEq, Repr

/-- `checkRateLimit` (SnapshotRestorer.ts): returns whether the attempt is
allowed, together with the updated rate-limit map. -/
def checkRateLimit (cfg : ModConfig) (m : List (String × RateLimitEntry))
    (sessionId : String) (now : Int) : Bool × List (String × RateLimitEntry) :=
  match lookupPair m sessionId with
  | none => (true, mapSet m sessionId { lastAttempt := now, attemptCount := 1 })
  | some entry =>
      if now - entry.lastAttempt < (cfg.minRestoreIntervalMs : Int) then
        (false, mapSet m sessionId
          { lastAttempt := entry.lastAttempt, attemptCount := entry.attemptCount + 1 })
      else
        (true, mapSet m sessionId { lastAttempt := now, attemptCount := 1 })

/-- Set of truthy ids of the current collection, as built inside
`restoreFromFile` before `addSnapshotItems`. -/
def existingIds (items : List Item) : List String :=
  items.foldl (fun s it => if it._id != "" then setAdd s it._id else s) []

/-- Abstraction of the collaborators `restoreFromFile` consumes for one call:
the path-confinement check, `fs.existsSync`, the `checkFileSize` verdict, the
result of `readSnapshotWithRetry` (`none` = all retries exhausted), the
outcome of `JSON.parse` on that content (`none` = parse threw, or did not
yield a structurally well-typed snapshot object), and whether an unexpected
exception is raised during the remove/add mutation phase. -/
structure RestoreEnv where
  pathOk : Bool
  fileExists : Bool
  sizeValid : Bool
  readResult : Option String
  parseResult : Option InventorySnapshot
  mutationThrows : Bool
deriving DecidableEq, Repr

/-- Observable outcome of one `tryRestore` call: the returned result, the
final state of the (in-place mutated) record collection, whether deletion of
the snapshot file was requested, and the updated rate-limit map. -/
structure RestoreOutput where
  result : RestoreResult
  items : List Item
  snapshotDeleted : Bool
  rateMap : List (String × RateLimitEntry)
deriving DecidableEq, Repr

/-- `restoreFromFile` (SnapshotRestorer.ts): size check, read with retry,
parse, structural validation, version validation, Equipment discovery, slot
sets, lookup and root-slot indexing, then the backup-guarded mutation phase.
Error-message texts that interpolate runtime data are abbreviated to their
fixed prefix. -/
def restoreFromFile (cfg : ModConfig) (env : RestoreEnv) (items : List Item)
    (rmap : List (String × RateLimitEntry)) : RestoreOutput :=
  if !env.sizeValid then
    { result := RestoreResult.failed "Snapshot file too large",
      items := items, snapshotDeleted := true, rateMap := rmap }
  else
    match env.readResult with
    | none =>
        { result := RestoreResult.failed "Failed to read snapshot file after retries",
          items := items, snapshotDeleted := false, rateMap := rmap }
    | some _ =>
        match env.parseResult with
        | none =>
            { result := RestoreResult.failed "JSON parse error",
              items := items, snapshotDeleted := true, rateMap := rmap }
        | some snapshot =>
            match validateSnapshot snapshot with
            | some err =>
                { result := RestoreResult.failed err,
                  items := items, snapshotDeleted := true, rateMap := rmap }
            | none =>
                if !(validateSnapshotVersion snapshot.modVersion) then
                  { result := RestoreResult.failed "Snapshot version is incompatible",
                    items := items, snapshotDeleted := true, rateMap := rmap }
                else
                  let profileEquipmentId := findEquipmentId items
                  let snapshotEquipmentId := findEquipmentId snapshot.items
                  if !(jsTruthy profileEquipmentId) then
                    { result :=
                        RestoreResult.failed "Could not find Equipment container in profile",
                      items := items, snapshotDeleted := false, rateMap := rmap }
                  else
                    let pe := profileEquipmentId.getD ""
                    let sets := buildSlotSets snapshot snapshotEquipmentId
                    let lookup := buildItemLookup snapshot.items
                    let itemRootSlots := buildRootSlotMap snapshot.items snapshotEquipmentId
                      lookup cfg.maxParentTraversalDepth
                    let backupItems := createInventoryBackup items
                    if env.mutationThrows then
                      { result := RestoreResult.failed "Restoration failed, rolled back",
                        items := restoreFromBackup items backupItems,
                        snapshotDeleted := false, rateMap := rmap }
                    else
                      let removed := removeManagedSlotItems items pe sets.includedSlots
                        sets.snapshotSlots sets.emptySlots cfg.maxParentTraversalDepth
                      let ex := existingIds removed.1
                      let r := addSnapshotItems removed.1 snapshot.items pe
                        snapshotEquipmentId sets.includedSlots itemRootSlots ex
                      { result := RestoreResult.succeeded r.2.1 r.2.2.1 r.2.2.2,
                        items := r.1, snapshotDeleted := true, rateMap := rmap }

/-- `tryRestore` (SnapshotRestorer.ts): session-id guard, rate limiting, path
confinement, file existence, then `restoreFromFile`. (The `Array.isArray`
type guard on the collection is a dynamic-typing check with no counterpart on
a typed `List`; the outer catch-all never fires since the embedded pipeline
is total.) -/
def tryRestore (cfg : ModConfig) (env : RestoreEnv) (now : Int)
    (rmap : List (String × RateLimitEntry)) (sessionId : String)
    (items : List Item) : RestoreOutput :=
  if !(isValidSessionId sessionId) then
    { result := RestoreResult.failed "Invalid session ID format",
      items := items, snapshotDeleted := false, rateMap := rmap }
  else
    let rl := checkRateLimit cfg rmap sessionId now
    if !rl.1 then
      { result := RestoreResult.failed "Rate limit exceeded - please wait before retrying",
        items := items, snapshotDeleted := false, rateMap := rl.2 }
    else if !env.pathOk then
      { result := RestoreResult.failed "Invalid snapshot path",
        items := items, snapshotDeleted := false, rateMap := rl.2 }
    else if !env.fileExists then
      { result := RestoreResult.failed "No snapshot file found",
        items := items, snapshotDeleted := false, rateMap := rl.2 }
    else
      restoreFromFile cfg env items rl.2

-- ============================================================================
-- Spec-side definitions (stated from the claims' wording, for comparison
-- with the code-side definitions above)
-- ============================================================================

/-- Dropping the unknown sub-field kinds of a state blob, keeping every
declared sub-field. -/
def eraseUnknownUpd (u : ItemUpd) : ItemUpd :=
  { u with extra := [] }

/-- An item up to unknown state-blob sub-fields: ids, parents, slots,
placements and all declared state sub-fields. -/
def stripItem (it : Item) : Item :=
  { it with upd := it.upd.map eraseUnknownUpd }

/-- Version acceptance as claim C7 words it: rejected iff the `modVersion`
field is absent, or both the current and the snapshot version parse and their
major components differ; unparseable strings on either side are accepted. -/
def versionAcceptSpec (modVersion : Option String) : Bool :=
  match modVersion with
  | none => false
  | some s =>
      match parseVersion MOD_VERSION, parseVersion s with
      | some currentParts, some snapParts => snapParts.major == currentParts.major
      | _, _ => true

/-- Version acceptance as amended: rejected iff the `modVersion` field is
JS-falsy (absent or the empty string), or both versions parse and their major
components differ. -/
def versionAcceptSpecAmended (modVersion : Option String) : Bool :=
  if !(jsTruthy modVersion) then false
  else
    match parseVersion MOD_VERSION, parseVersion (modVersion.getD "") with
    | some currentParts, some snapParts => snapParts.major == currentParts.major
    | _, _ => true

/-- Claim C8's list of snapshot-discarding judgements: the snapshot was
judged oversized, unparseable as JSON, structurally invalid, or
version-incompatible (all of which presuppose that the guard, rate-limit,
path and existence stages passed, or the file stage is never reached). -/
def snapshotJudgedBad (env : RestoreEnv) : Bool :=
  !env.sizeValid ||
  (match env.readResult with
   | none => false
   | some _ =>
       match env.parseResult with
       | none => true
       | some snapshot =>
           (validateSnapshot snapshot).isSome ||
           !(validateSnapshotVersion snapshot.modVersion))

/-- A snapshot record that reaches `addSnapshotItems`' non-managed-slot and
duplicate checks: not the Equipment container, and `_id`/`_tpl` present. -/
def reachesSlotCheck (s : Item) : Bool :=
  s._tpl != EQUIPMENT_TEMPLATE_ID && s._id != "" && s._tpl != ""

/-- A snapshot record that `addSnapshotItems` skips as non-managed: it
reaches the slot check and its resolved root slot is known and excluded. -/
def slotSkippedItem (includedSlots : List String)
    (itemRootSlots : List (String × String)) (s : Item) : Bool :=
  reachesSlotCheck s && shouldSkipSlot includedSlots itemRootSlots s._id

/-- A snapshot record that reaches `addSnapshotItems`' duplicate check (and
is then either counted as a duplicate or appended). -/
def eligibleItem (includedSlots : List String)
    (itemRootSlots : List (String × String)) (s : Item) : Bool :=
  reachesSlotCheck s && !(shouldSkipSlot includedSlots itemRootSlots s._id)

-- ============================================================================
-- Concrete fixtures for witnesses and counterexamples
-- ============================================================================

/-- A state blob with no declared sub-field set. -/
def baseUpd : ItemUpd :=
  { StackObjectsCount := none, SpawnedInSession := none, Foldable := none,
    MedKit := none, Repairable := none, Resource := none, FoodDrink := none,
    Tag := none, Dogtag := none, Key := none, Light := none, Togglable := none,
    FireMode := none, Sight := none, extra := [] }

/-- A state blob whose only content is a sub-field kind outside the declared
list (as a future game version might produce). -/
def updUnknownField : ItemUpd :=
  { baseUpd with extra := [("FaceShield", "durability 40")] }

/-- The default configuration (Constants.ts `DEFAULT_CONFIG`). -/
def cfgDefault : ModConfig :=
  { maxParentTraversalDepth := 20, maxFileReadRetries := 5, fileReadRetryDelayMs := 150,
    maxSnapshotFileSizeBytes := 10485760, verboseLogging := false,
    minRestoreIntervalMs := 1000 }

/-- The profile's Equipment container. -/
def profileEquipItem : Item :=
  { _id := "E2", _tpl := EQUIPMENT_TEMPLATE_ID, parentId := none, slotId := none,
    location := none, upd := none }

/-- A profile item outside the managed slots whose state blob carries an
unknown sub-field kind. -/
def pocketsItem : Item :=
  { _id := "X", _tpl := "junk", parentId := some "E2", slotId := some "Pockets",
    location := none, upd := some updUnknownField }

/-- Profile collection for the rollback counterexample. -/
def invFixture : List Item := [profileEquipItem, pocketsItem]

/-- The snapshot's Equipment container. -/
def snapEquipItem : Item :=
  { _id := "E", _tpl := EQUIPMENT_TEMPLATE_ID, parentId := none, slotId := none,
    location := none, upd := none }

/-- A holstered weapon captured in the snapshot. -/
def snapWeaponItem : Item :=
  { _id := "W", _tpl := "weapon", parentId := some "E", slotId := some "Holster",
    location := none, upd := none }

/-- A well-formed, version-compatible snapshot managing the holster slot. -/
def snapOkFixture : InventorySnapshot :=
  { items := [snapEquipItem, snapWeaponItem], includedSlots := some ["holster"],
    emptySlots := none, modVersion := some "1.1.0" }

/-- Environment for a run that reaches the mutation phase and then raises. -/
def envThrowFixture : RestoreEnv :=
  { pathOk := true, fileExists := true, sizeValid := true, readResult := some "x",
    parseResult := some snapOkFixture, mutationThrows := true }

/-- First node of a two-node parent cycle. -/
def itemCycleA : Item :=
  { _id := "a", _tpl := "t1", parentId := some "b", slotId := some "SlotA",
    location := none, upd := none }

/-- Second node of a two-node parent cycle. -/
def itemCycleB : Item :=
  { _id := "b", _tpl := "t2", parentId := some "a", slotId := some "SlotB",
    location := none, upd := none }

/-- Lookup map over the two-node cycle. -/
def cycleLookup : List (String × Item) :=
  buildItemLookup [itemCycleA, itemCycleB]

/-- A snapshot containing its Equipment container and a two-node parent
cycle. -/
def snapCycleFixture : InventorySnapshot :=
  { items := [snapEquipItem, itemCycleA, itemCycleB], includedSlots := some ["holster"],
    emptySlots := none, modVersion := some "1.1.0" }

/-- Environment delivering the cyclic snapshot, with no mutation error. -/
def envCycleFixture : RestoreEnv :=
  { pathOk := true, fileExists := true, sizeValid := true, readResult := some "x",
    parseResult := some snapCycleFixture, mutationThrows := false }

/-- Record used by the C6 witness: parent link is the Equipment root. -/
def witRootChild : Item :=
  { _id := "w", _tpl := "t", parentId := some "EQ", slotId := some "Holster",
    location := none, upd := none }

/-- Snapshot record whose id already exists in the collection and whose
resolved root slot is excluded (for the C3 counterexample). -/
def dupNonManagedItem : Item :=
  { _id := "W", _tpl := "weapon", parentId := some "E", slotId := some "Holster",
    location := none, upd := none }

/-- Snapshot record carrying the Equipment template while sitting in a
resolved, excluded root slot (for the C5 counterexample). -/
def equipTplNested : Item :=
  { _id := "N", _tpl := EQUIPMENT_TEMPLATE_ID, parentId := some "E",
    slotId := some "Backpack", location := none, upd := none }

/-- A holstered weapon in the profile, direct child of the Equipment root. -/
def holsterItem : Item :=
  { _id := "H", _tpl := "gun", parentId := some "E2", slotId := some "Holster",
    location := none, upd := none }

/-- A magazine nested inside the holstered weapon. -/
def magItem : Item :=
  { _id := "M", _tpl := "mag", parentId := some "H", slotId := some "mod_magazine",
    location := none, upd := none }

/-- Profile collection for the removal witness. -/
def c2Fixture : List Item := [profileEquipItem, holsterItem, magItem]

-- ============================================================================
-- Helper lemmas
-- ============================================================================

theorem optMapEta {α : Type} (f : α → α) (h : ∀ a, f a = a) (o : Option α) :
    o.map f = o := by
  cases o <;> simp [h]

theorem foldableCloneEta (o : Option UpdFoldable) :
    o.map (fun f => ({ Folded := f.Folded } : UpdFoldable)) = o :=
  optMapEta _ (fun _ => rfl) o

theorem medKitCloneEta (o : Option UpdMedKit) :
    o.map (fun m => ({ HpResource := m.HpResource } : UpdMedKit)) = o :=
  optMapEta _ (fun _ => rfl) o

theorem repairableCloneEta (o : Option UpdRepairable) :
    o.map (fun r =>
      ({ Durability := r.Durability, MaxDurability := r.MaxDurability } :
        UpdRepairable)) = o :=
  optMapEta _ (fun _ => rfl) o

theorem resourceCloneEta (o : Option UpdResource) :
    o.map (fun r => ({ Value := r.Value } : UpdResource)) = o :=
  optMapEta _ (fun _ => rfl) o

theorem foodDrinkCloneEta (o : Option UpdFoodDrink) :
    o.map (fun f => ({ HpPercent := f.HpPercent } : UpdFoodDrink)) = o :=
  optMapEta _ (fun _ => rfl) o

theorem tagCloneEta (o : Option UpdTag) :
    o.map (fun t => ({ Name := t.Name, Color := t.Color } : UpdTag)) = o :=
  optMapEta _ (fun _ => rfl) o

theorem dogtagCloneEta (o : Option UpdDogtag) :
    o.map (fun d =>
      ({ AccountId := d.AccountId, ProfileId := d.ProfileId, Nickname := d.Nickname,
         Side := d.Side, Level := d.Level, Time := d.Time, Status := d.Status,
         KillerAccountId := d.KillerAccountId, KillerProfileId := d.KillerProfileId,
         KillerName := d.KillerName, WeaponName := d.WeaponName } : UpdDogtag)) = o :=
  optMapEta _ (fun _ => rfl) o

theorem keyCloneEta (o : Option UpdKey) :
    o.map (fun k => ({ NumberOfUsages := k.NumberOfUsages } : UpdKey)) = o :=
  optMapEta _ (fun _ => rfl) o

theorem lightCloneEta (o : Option UpdLight) :
    o.map (fun l =>
      ({ IsActive := l.IsActive, SelectedMode := l.SelectedMode } : UpdLight)) = o :=
  optMapEta _ (fun _ => rfl) o

theorem togglableCloneEta (o : Option UpdTogglable) :
    o.map (fun t => ({ On := t.On } : UpdTogglable)) = o :=
  optMapEta _ (fun _ => rfl) o

theorem fireModeCloneEta (o : Option UpdFireMode) :
    o.map (fun f => ({ FireMode := f.FireMode } : UpdFireMode)) = o :=
  optMapEta _ (fun _ => rfl) o

theorem sightCloneEta (o : Option UpdSight) :
    o.map (fun s =>
      ({ ScopesCurrentCalibPointIndexes := s.ScopesCurrentCalibPointIndexes.map id,
         ScopesSelectedModes := s.ScopesSelectedModes.map id,
         SelectedScope := s.SelectedScope } : UpdSight)) = o :=
  optMapEta _ (fun a => by cases a; simp) o

theorem deepCloneItemUpd_eq (u : Option ItemUpd) :
    deepCloneItemUpd u = u.map eraseUnknownUpd := by
  cases u with
  | none => rfl
  | some v =>
    cases v with
    | mk f1 f2 f3 f4 f5 f6 f7 f8 f9 f10 f11 f12 f13 f14 f15 =>
      simp only [deepCloneItemUpd, eraseUnknownUpd, Option.map_some', foldableCloneEta,
        medKitCloneEta, repairableCloneEta, resourceCloneEta, foodDrinkCloneEta,
        tagCloneEta, dogtagCloneEta, keyCloneEta, lightCloneEta, togglableCloneEta,
        fireModeCloneEta, sightCloneEta]

theorem jsTruthy_some_iff (o : Option String) :
    jsTruthy o = true ↔ ∃ s, o = some s ∧ s ≠ "" := by
  cases o <;> simp [jsTruthy]

theorem contains_mem_iff (l : List String) (x : String) :
    l.contains x = true ↔ x ∈ l := by
  simp

theorem mem_setAdd_iff (s : List String) (y x : String) :
    x ∈ setAdd s y ↔ x ∈ s ∨ x = y := by
  unfold setAdd
  by_cases h : s.contains y = true
  · rw [if_pos h]
    constructor
    · exact Or.inl
    · rintro (hx | rfl)
      · exact hx
      · exact (contains_mem_iff s x).mp h
  · rw [if_neg h]
    simp [List.mem_append]

theorem mem_setAdd_self (s : List String) (y : String) : y ∈ setAdd s y :=
  (mem_setAdd_iff s y y).mpr (Or.inr rfl)

theorem mem_setAdd_of_mem (s : List String) (y x : String) (h : x ∈ s) :
    x ∈ setAdd s y :=
  (mem_setAdd_iff s y x).mpr (Or.inl h)

/-- Membership coming out of a fold that conditionally `setAdd`s a projected
key: it was already in the accumulator, or contributed by a list element
satisfying the guard. -/
theorem foldl_setAdd_mem (p : Item → Bool) (f : Item → String) :
    ∀ (items : List Item) (s : List String) (x : String),
      x ∈ List.foldl (fun acc it => if p it then setAdd acc (f it) else acc) s items →
      x ∈ s ∨ ∃ it ∈ items, f it = x ∧ p it = true := by
  intro items
  induction items with
  | nil => intro s x hx; exact Or.inl hx
  | cons hd rest ih =>
    intro s x hx
    rw [List.foldl_cons] at hx
    rcases ih _ x hx with hx' | ⟨it, hm, hf, hp⟩
    · by_cases hp : p hd = true
      · rw [if_pos hp] at hx'
        rcases (mem_setAdd_iff _ _ _).mp hx' with hs | rfl
        · exact Or.inl hs
        · exact Or.inr ⟨hd, List.mem_cons_self hd rest, rfl, hp⟩
      · rw [if_neg hp] at hx'
        exact Or.inl hx'
    · exact Or.inr ⟨it, List.mem_cons_of_mem hd hm, hf, hp⟩

/-- The conditional-`setAdd` fold only grows the accumulator. -/
theorem foldl_setAdd_mono (p : Item → Bool) (f : Item → String) :
    ∀ (items : List Item) (s : List String) (x : String), x ∈ s →
      x ∈ List.foldl (fun acc it => if p it then setAdd acc (f it) else acc) s items := by
  intro items
  induction items with
  | nil => intro s x hx; exact hx
  | cons hd rest ih =>
    intro s x hx
    rw [List.foldl_cons]
    apply ih
    by_cases hp : p hd = true
    · rw [if_pos hp]; exact mem_setAdd_of_mem _ _ _ hx
    · rw [if_neg hp]; exact hx

/-- Every guard-satisfying element's key ends up in the conditional-`setAdd`
fold. -/
theorem foldl_setAdd_complete (p : Item → Bool) (f : Item → String) :
    ∀ (items : List Item) (s : List String) (it : Item), it ∈ items → p it = true →
      f it ∈ List.foldl (fun acc it => if p it then setAdd acc (f it) else acc) s items := by
  intro items
  induction items with
  | nil => intro s it hm; exact absurd hm (List.not_mem_nil it)
  | cons hd rest ih =>
    intro s it hm hp
    rw [List.foldl_cons]
    rcases List.mem_cons.mp hm with rfl | hm'
    · apply foldl_setAdd_mono
      rw [if_pos hp]
      exact mem_setAdd_self _ _
    · exact ih _ it hm' hp

theorem closurePass_nil (s : List String) : closurePass [] s = s := rfl

theorem closurePass_cons (it : Item) (rest : List Item) (s : List String) :
    closurePass (it :: rest) s =
      closurePass rest (if descGuard s it then s ++ [it._id] else s) := rfl

/-- One nested-item pass only appends to the removal set. -/
theorem closurePass_grows (items : List Item) :
    ∀ s : List String, ∃ t, closurePass items s = s ++ t := by
  induction items with
  | nil => intro s; exact ⟨[], by simp [closurePass_nil]⟩
  | cons it rest ih =>
    intro s
    rw [closurePass_cons]
    by_cases g : descGuard s it = true
    · rw [if_pos g]
      obtain ⟨t, ht⟩ := ih (s ++ [it._id])
      exact ⟨[it._id] ++ t, by rw [ht, List.append_assoc]⟩
    · rw [if_neg g]
      exact ih s

theorem mem_closurePass (items : List Item) (s : List String) (x : String)
    (h : x ∈ s) : x ∈ closurePass items s := by
  obtain ⟨t, ht⟩ := closurePass_grows items s
  rw [ht]
  exact List.mem_append_left t h

theorem closureIter_succ (items : List Item) (n : Nat) (s : List String) :
    closureIter items (n + 1) s =
      (if closurePass items s = s then s
       else closureIter items n (closurePass items s)) := rfl

theorem mem_closureIter (items : List Item) :
    ∀ (n : Nat) (s : List String) (x : String), x ∈ s → x ∈ closureIter items n s := by
  intro n
  induction n with
  | zero => intro s x hx; exact hx
  | succ n ih =>
    intro s x hx
    rw [closureIter_succ]
    by_cases ht : closurePass items s = s
    · rw [if_pos ht]; exact hx
    · rw [if_neg ht]
      exact ih _ x (mem_closurePass items s x hx)

/-- Soundness of one pass: any id it holds was already marked, or belongs to
an item of the collection whose parent is marked in the pass result. -/
theorem closurePass_mem_sound :
    ∀ (items : List Item) (s : List String) (x : String),
      x ∈ closurePass items s →
      x ∈ s ∨ ∃ it ∈ items, it._id = x ∧
        ∃ p, it.parentId = some p ∧ p ∈ closurePass items s := by
  intro items
  induction items with
  | nil => intro s x hx; exact Or.inl hx
  | cons it rest ih =>
    intro s x hx
    rw [closurePass_cons] at hx
    rcases ih _ x hx with hx' | ⟨it', hm, hid, p, hp, hps⟩
    · by_cases g : descGuard s it = true
      · rw [if_pos g] at hx'
        rcases List.mem_append.mp hx' with hs | hy
        · exact Or.inl hs
        · have hx'' : x = it._id := by simpa using hy
          have g' := g
          unfold descGuard at g'
          obtain ⟨⟨g1, g2⟩, -⟩ := by
            simpa [Bool.and_eq_true] using g'
          obtain ⟨ps, hpe, -⟩ := (jsTruthy_some_iff it.parentId).mp g1
          refine Or.inr ⟨it, List.mem_cons_self it rest, hx''.symm,
            it.parentId.getD "", ?_, ?_⟩
          · rw [hpe]; rfl
          · have hmem : (it.parentId.getD "") ∈ s := by simpa using g2
            rw [closurePass_cons, if_pos g]
            exact mem_closurePass _ _ _ (List.mem_append_left _ hmem)
      · rw [if_neg g] at hx'
        exact Or.inl hx'
    · refine Or.inr ⟨it', List.mem_cons_of_mem it hm, hid, p, hp, ?_⟩
      rw [closurePass_cons]
      exact hps

/-- Soundness of the iterated closure: any id in the removal set was in the
seed, or belongs to an item of the collection whose parent is in the final
removal set. -/
theorem closureIter_mem_sound (items : List Item) :
    ∀ (n : Nat) (s : List String) (x : String),
      x ∈ closureIter items n s →
      x ∈ s ∨ ∃ it ∈ items, it._id = x ∧
        ∃ p, it.parentId = some p ∧ p ∈ closureIter items n s := by
  intro n
  induction n with
  | zero => intro s x hx; exact Or.inl hx
  | succ n ih =>
    intro s x hx
    rw [closureIter_succ] at hx
    by_cases ht : closurePass items s = s
    · rw [if_pos ht] at hx; exact Or.inl hx
    · rw [if_neg ht] at hx
      rcases ih _ x hx with hx' | ⟨it, hm, hid, p, hp, hps⟩
      · rcases closurePass_mem_sound items s x hx' with hs | ⟨it, hm, hid, p, hp, hps⟩
        · exact Or.inl hs
        · refine Or.inr ⟨it, hm, hid, p, hp, ?_⟩
          rw [closureIter_succ, if_neg ht]
          exact mem_closureIter items n _ p hps
      · refine Or.inr ⟨it, hm, hid, p, hp, ?_⟩
        rw [closureIter_succ, if_neg ht]
        exact hps

/-- If one pass adds nothing, no item of the collection satisfies the
descendant guard against the current removal set. -/
theorem closurePass_fix :
    ∀ (items : List Item) (s : List String), closurePass items s = s →
      ∀ it ∈ items, descGuard s it = false := by
  intro items
  induction items with
  | nil => intro s _ it hm; exact absurd hm (List.not_mem_nil it)
  | cons hd rest ih =>
    intro s hfix it hm
    rw [closurePass_cons] at hfix
    by_cases g : descGuard s hd = true
    · exfalso
      rw [if_pos g] at hfix
      obtain ⟨t, ht⟩ := closurePass_grows rest (s ++ [hd._id])
      rw [ht] at hfix
      have hlen := congrArg List.length hfix
      simp [List.length_append] at hlen
    · rw [if_neg g] at hfix
      rcases List.mem_cons.mp hm with rfl | hm'
      · simpa using g
      · exact ih s hfix it hm'

theorem length_filter_split {α : Type} (p : α → Bool) (l : List α) :
    (l.filter p).length + (l.filter (fun a => !(p a))).length = l.length := by
  induction l with
  | nil => rfl
  | cons a l ih =>
    by_cases h : p a = true <;> simp [List.filter_cons, h] <;> omega

theorem lookupPair_mem {α : Type} (m : List (String × α)) (k : String) (v : α)
    (h : lookupPair m k = some v) : (k, v) ∈ m := by
  unfold lookupPair at h
  cases hf : m.find? (fun p => p.1 == k) with
  | none => rw [hf] at h; cases h
  | some pr =>
    rw [hf] at h
    have hm := List.mem_of_find?_eq_some hf
    have hp := List.find?_some hf
    have hv : pr.2 = v := by simpa using h
    have hk : pr.1 = k := by simpa using hp
    have : pr = (k, v) := by
      cases pr
      simp_all
    rwa [this] at hm

theorem createItemFromSnapshot_id (s : Item) (pe : String) (se : Option String) :
    (createItemFromSnapshot s pe se)._id = s._id := rfl

/-- Full functional description of the `addSnapshotItems` loop: the appended
suffix, the counter increments, distinctness and non-pre-existence of the
appended ids, and the origin of every appended item. -/
theorem addLoop_spec (pe : String) (se : Option String) (inc : List String)
    (roots : List (String × String)) :
    ∀ (snapItems : List Item) (inv : List Item) (ex : List String) (a d n : Nat),
      ∃ (new : List Item) (dup : Nat),
        addLoop pe se inc roots snapItems inv ex a d n =
          (inv ++ new, a + new.length, d + dup,
           n + (snapItems.filter (fun s => slotSkippedItem inc roots s)).length) ∧
        dup + new.length =
          (snapItems.filter (fun s => eligibleItem inc roots s)).length ∧
        (new.map (fun it => it._id)).Nodup ∧
        (∀ it ∈ new, ex.contains it._id = false) ∧
        (∀ it ∈ new, ∃ s ∈ snapItems, eligibleItem inc roots s = true ∧
            it = createItemFromSnapshot s pe se) := by
  intro snapItems
  induction snapItems with
  | nil =>
    intro inv ex a d n
    exact ⟨[], 0, by simp [addLoop], by simp, by simp, by simp, by simp⟩
  | cons s rest ih =>
    intro inv ex a d n
    by_cases h1 : (s._tpl == EQUIPMENT_TEMPLATE_ID) = true
    · have htpl : s._tpl = EQUIPMENT_TEMPLATE_ID := by simpa using h1
      have hskip : slotSkippedItem inc roots s = false := by
        simp [slotSkippedItem, reachesSlotCheck, htpl]
      have helig : eligibleItem inc roots s = false := by
        simp [eligibleItem, reachesSlotCheck, htpl]
      obtain ⟨new, dup, heq, hcnt, hnd, hexm, hsrc⟩ := ih inv ex a d n
      have hstep : addLoop pe se inc roots (s :: rest) inv ex a d n
          = addLoop pe se inc roots rest inv ex a d n := by
        simp [addLoop, h1]
      refine ⟨new, dup, ?_, ?_, hnd, hexm, ?_⟩
      · rw [hstep, heq]
        simp [List.filter_cons, hskip]
      · simpa [List.filter_cons, helig] using hcnt
      · intro it hm
        obtain ⟨s', hs', he', hc'⟩ := hsrc it hm
        exact ⟨s', List.mem_cons_of_mem s hs', he', hc'⟩
    · by_cases h2 : (s._id == "" || s._tpl == "") = true
      · have hmiss : s._id = "" ∨ s._tpl = "" := by simpa using h2
        have hreach : reachesSlotCheck s = false := by
          rcases hmiss with h | h <;> simp [reachesSlotCheck, h]
        have hskip : slotSkippedItem inc roots s = false := by
          simp [slotSkippedItem, hreach]
        have helig : eligibleItem inc roots s = false := by
          simp [eligibleItem, hreach]
        obtain ⟨new, dup, heq, hcnt, hnd, hexm, hsrc⟩ := ih inv ex a d n
        have hstep : addLoop pe se inc roots (s :: rest) inv ex a d n
            = addLoop pe se inc roots rest inv ex a d n := by
          simp [addLoop, h1, h2]
        refine ⟨new, dup, ?_, ?_, hnd, hexm, ?_⟩
        · rw [hstep, heq]
          simp [List.filter_cons, hskip]
        · simpa [List.filter_cons, helig] using hcnt
        · intro it hm
          obtain ⟨s', hs', he', hc'⟩ := hsrc it hm
          exact ⟨s', List.mem_cons_of_mem s hs', he', hc'⟩
      · have hreach : reachesSlotCheck s = true := by
          have h1' : s._tpl ≠ EQUIPMENT_TEMPLATE_ID := by simpa using h1
          have h2' : s._id ≠ "" ∧ s._tpl ≠ "" := by simpa [not_or] using h2
          simp [reachesSlotCheck, h1', h2'.1, h2'.2]
        by_cases h3 : shouldSkipSlot inc roots s._id = true
        · have hskip : slotSkippedItem inc roots s = true := by
            simp [slotSkippedItem, hreach, h3]
          have helig : eligibleItem inc roots s = false := by
            simp [eligibleItem, h3]
          obtain ⟨new, dup, heq, hcnt, hnd, hexm, hsrc⟩ := ih inv ex a d (n + 1)
          have hstep : addLoop pe se inc roots (s :: rest) inv ex a d n
              = addLoop pe se inc roots rest inv ex a d (n + 1) := by
            simp [addLoop, h1, h2, h3]
          refine ⟨new, dup, ?_, ?_, hnd, hexm, ?_⟩
          · rw [hstep, heq]
            simp [List.filter_cons, hskip, Prod.mk.injEq]
            omega
          · simpa [List.filter_cons, helig] using hcnt
          · intro it hm
            obtain ⟨s', hs', he', hc'⟩ := hsrc it hm
            exact ⟨s', List.mem_cons_of_mem s hs', he', hc'⟩
        · have hskip : slotSkippedItem inc roots s = false := by
            simp [slotSkippedItem, h3]
          have helig : eligibleItem inc roots s = true := by
            simp [eligibleItem, hreach, h3]
          by_cases h4 : ex.contains s._id = true
          · have h4' : s._id ∈ ex := by simpa using h4
            obtain ⟨new, dup, heq, hcnt, hnd, hexm, hsrc⟩ := ih inv ex a (d + 1) n
            have hstep : addLoop pe se inc roots (s :: rest) inv ex a d n
                = addLoop pe se inc roots rest inv ex a (d + 1) n := by
              simp [addLoop, h1, h2, h3, h4']
            refine ⟨new, dup + 1, ?_, ?_, hnd, hexm, ?_⟩
            · rw [hstep, heq]
              simp [List.filter_cons, hskip, Prod.mk.injEq]
              omega
            · simp [List.filter_cons, helig]
              omega
            · intro it hm
              obtain ⟨s', hs', he', hc'⟩ := hsrc it hm
              exact ⟨s', List.mem_cons_of_mem s hs', he', hc'⟩
          · have h4' : s._id ∉ ex := by simpa using h4
            obtain ⟨new, dup, heq, hcnt, hnd, hexm, hsrc⟩ :=
              ih (inv ++ [createItemFromSnapshot s pe se]) (ex ++ [s._id]) (a + 1) d n
            have hstep : addLoop pe se inc roots (s :: rest) inv ex a d n
                = addLoop pe se inc roots rest (inv ++ [createItemFromSnapshot s pe se])
                    (ex ++ [s._id]) (a + 1) d n := by
              simp [addLoop, h1, h2, h3, h4']
            refine ⟨createItemFromSnapshot s pe se :: new, dup, ?_, ?_, ?_, ?_, ?_⟩
            · rw [hstep, heq]
              simp [List.filter_cons, hskip, Prod.mk.injEq, List.append_assoc]
              omega
            · simp [List.filter_cons, helig]
              omega
            · simp only [List.map_cons, List.nodup_cons]
              refine ⟨?_, hnd⟩
              intro hmem
              rw [List.mem_map] at hmem
              obtain ⟨it, hit, hideq⟩ := hmem
              have hfalse := hexm it hit
              have : it._id ∈ ex ++ [s._id] := by
                rw [List.mem_append]
                right
                simp [createItemFromSnapshot_id] at hideq
                simp [hideq]
              rw [(contains_mem_iff _ _).mpr this] at hfalse
              cases hfalse
            · intro it hm
              rcases List.mem_cons.mp hm with rfl | hm'
              · rw [createItemFromSnapshot_id]
                simpa using h4
              · have hfalse := hexm it hm'
                by_cases hc : ex.contains it._id = true
                · have : it._id ∈ ex ++ [s._id] :=
                    List.mem_append_left _ ((contains_mem_iff _ _).mp hc)
                  rw [(contains_mem_iff _ _).mpr this] at hfalse
                  cases hfalse
                · simpa using hc
            · intro it hm
              rcases List.mem_cons.mp hm with rfl | hm'
              · exact ⟨s, List.mem_cons_self s rest, helig, rfl⟩
              · obtain ⟨s', hs', he', hc'⟩ := hsrc it hm'
                exact ⟨s', List.mem_cons_of_mem s hs', he', hc'⟩

theorem stripItem_clone (it : Item) : stripItem (cloneProfileItem it) = stripItem it := by
  cases it with
  | mk i t p sl loc u =>
    simp only [stripItem, cloneProfileItem, deepCloneItemUpd_eq, Option.map_map]
    have h : eraseUnknownUpd ∘ eraseUnknownUpd = eraseUnknownUpd :=
      funext (fun v => rfl)
    rw [h]

/-- Every `restoreFromFile` outcome is either a failure with zero counters
and the collection left as it was or replaced by the rollback backup, or a
success. -/
theorem restoreFromFile_shape (cfg : ModConfig) (env : RestoreEnv) (items : List Item)
    (rmap : List (String × RateLimitEntry)) :
    ((restoreFromFile cfg env items rmap).result.success = false ∧
     (restoreFromFile cfg env items rmap).result.itemsAdded = 0 ∧
     (restoreFromFile cfg env items rmap).result.duplicatesSkipped = 0 ∧
     (restoreFromFile cfg env items rmap).result.nonManagedSkipped = 0 ∧
     ((restoreFromFile cfg env items rmap).items = items ∨
      (restoreFromFile cfg env items rmap).items = createInventoryBackup items)) ∨
    (restoreFromFile cfg env items rmap).result.success = true := by
  cases hsz : env.sizeValid with
  | false => simp [restoreFromFile, RestoreResult.failed, hsz]
  | true =>
    cases hread : env.readResult with
    | none => simp [restoreFromFile, RestoreResult.failed, hsz, hread]
    | some content =>
      cases hparse : env.parseResult with
      | none => simp [restoreFromFile, RestoreResult.failed, hsz, hread, hparse]
      | some snap =>
        cases hv : validateSnapshot snap with
        | some err => simp [restoreFromFile, RestoreResult.failed, hsz, hread, hparse, hv]
        | none =>
          cases hver : validateSnapshotVersion snap.modVersion with
          | false =>
            simp [restoreFromFile, RestoreResult.failed, hsz, hread, hparse, hv, hver]
          | true =>
            cases heq : jsTruthy (findEquipmentId items) with
            | false =>
              simp [restoreFromFile, RestoreResult.failed, hsz, hread, hparse, hv,
                hver, heq]
            | true =>
              cases hmut : env.mutationThrows with
              | true =>
                simp [restoreFromFile, restoreFromBackup, RestoreResult.failed, hsz,
                  hread, hparse, hv, hver, heq, hmut]
              | false =>
                simp [restoreFromFile, RestoreResult.succeeded, hsz, hread, hparse,
                  hv, hver, heq, hmut]

/-- Every `tryRestore` outcome is either a failure with zero counters and the
collection left as it was or replaced by the rollback backup, or a success. -/
theorem tryRestore_shape (cfg : ModConfig) (env : RestoreEnv) (now : Int)
    (rmap : List (String × RateLimitEntry)) (sid : String) (items : List Item) :
    ((tryRestore cfg env now rmap sid items).result.success = false ∧
     (tryRestore cfg env now rmap sid items).result.itemsAdded = 0 ∧
     (tryRestore cfg env now rmap sid items).result.duplicatesSkipped = 0 ∧
     (tryRestore cfg env now rmap sid items).result.nonManagedSkipped = 0 ∧
     ((tryRestore cfg env now rmap sid items).items = items ∨
      (tryRestore cfg env now rmap sid items).items = createInventoryBackup items)) ∨
    (tryRestore cfg env now rmap sid items).result.success = true := by
  cases hval : isValidSessionId sid with
  | false => simp [tryRestore, RestoreResult.failed, hval]
  | true =>
    cases hrl : (checkRateLimit cfg rmap sid now).1 with
    | false => simp [tryRestore, RestoreResult.failed, hval, hrl]
    | true =>
      cases hpath : env.pathOk with
      | false => simp [tryRestore, RestoreResult.failed, hval, hrl, hpath]
      | true =>
        cases hex : env.fileExists with
        | false => simp [tryRestore, RestoreResult.failed, hval, hrl, hpath, hex]
        | true =>
          have h := restoreFromFile_shape cfg env items (checkRateLimit cfg rmap sid now).2
          simpa [tryRestore, hval, hrl, hpath, hex] using h

-- ============================================================================
-- Claim theorems
-- ============================================================================

/-- C4 (counterexample): the deep clone used at ownership boundaries does not
copy sub-field kinds outside the declared list — on a state blob whose only
content is an unknown sub-field, the clone is not deep-equal to the input
(the unknown sub-field is silently dropped), refuting the claim that every
unknown or future sub-field is independently copied. -/
theorem deepCloneItemUpd_unknown_cex :
    deepCloneItemUpd (some updUnknownField) ≠ some updUnknownField := by
  decide

/-- C4 (amended): `deepCloneItemUpd` returns a value that agrees with its
input on every declared sub-field (nested objects rebuilt field by field,
arrays element-wise) and drops all unknown sub-field kinds — it equals the
input with the unknown sub-fields erased. -/
theorem deepCloneItemUpd_known_fields (u : Option ItemUpd) :
    deepCloneItemUpd u = u.map eraseUnknownUpd :=
  deepCloneItemUpd_eq u

/-- C7 (counterexample): a present-but-empty `modVersion` is unparseable, so
the claim ("absent field rejects; unparseable accepts") predicts acceptance,
but `validateSnapshotVersion` tests JS truthiness and rejects it. -/
theorem validateSnapshotVersion_empty_cex :
    validateSnapshotVersion (some "") = false ∧ versionAcceptSpec (some "") = true :=
  ⟨rfl, rfl⟩

/-- C7 (amended): version checking rejects a snapshot if and only if its
`modVersion` field is JS-falsy (absent or the empty string) or both versions
parse and their major components differ; any other unparseable version string
on either side yields acceptance, and minor-version differences only affect
logging. -/
theorem validateSnapshotVersion_spec (mv : Option String) :
    validateSnapshotVersion mv = versionAcceptSpecAmended mv := by
  have hcur : parseVersion MOD_VERSION = some { major := 1, minor := 1, patch := 0 } :=
    rfl
  cases mv with
  | none => rfl
  | some s =>
    by_cases hs : s = ""
    · subst hs; rfl
    · have ht : jsTruthy (some s) = true := by simp [jsTruthy, hs]
      simp only [validateSnapshotVersion, versionAcceptSpecAmended, hcur, ht,
        Bool.not_true, Bool.false_eq_true, if_false, Option.getD_some]
      cases hp : parseVersion s with
      | none => simp [hp]
      | some p =>
        simp only [hp]
        by_cases hM : p.major = (1 : Int) <;> simp [hM]

/-- C6: within the traversal budget and absent a cycle abort, the root-slot
walk returns the current record's `slotId` when its `parentId` equals the
equipment-root id (also when both are absent), and returns `none` ("no root
slot found") when the current record has no `parentId` while an equipment
root was given. -/
theorem traceRootSlot_root_or_break (eqid : Option String)
    (lookup : List (String × Item)) (d : Nat) (visited : List String) (cur : Item)
    (hv : visited.contains cur._id = false) :
    (cur.parentId = eqid → traceAux eqid lookup (d + 1) visited cur = cur.slotId) ∧
    (cur.parentId = none → eqid ≠ none →
      traceAux eqid lookup (d + 1) visited cur = none) := by
  have hv' : cur._id ∉ visited := by simpa using hv
  constructor
  · intro hp
    simp [traceAux, hp, hv']
  · intro hp he
    cases eqid with
    | none => exact absurd rfl he
    | some e =>
      simp [traceAux, hv', hp, jsTruthy]

/-- C6 (witness): a record whose parent is the equipment root resolves to its
own slot. -/
theorem traceRootSlot_root_or_break_witness :
    traceAux (some "EQ") [] 20 [] witRootChild = some "Holster" :=
  (traceRootSlot_root_or_break (some "EQ") [] 19 [] witRootChild (by decide)).1
    (by decide)

/-- C9: the root-slot walk never diverges or throws — a revisited id aborts
the walk with result `none`, an exhausted depth budget aborts with `none`,
a concrete two-node parent cycle resolves to `none`, and a full `tryRestore`
run over a snapshot containing that cycle still returns a definite
(successful) outcome. -/
theorem traceRootSlot_cycle_safe :
    (∀ (eqid : Option String) (lookup : List (String × Item)) (fuel : Nat)
        (visited : List String) (cur : Item),
        cur._id ≠ "" → visited.contains cur._id = true →
        traceAux eqid lookup (fuel + 1) visited cur = none) ∧
    (∀ (eqid : Option String) (lookup : List (String × Item)) (visited : List String)
        (cur : Item), traceAux eqid lookup 0 visited cur = none) ∧
    traceRootSlot itemCycleA (some "E") cycleLookup 20 = none ∧
    (tryRestore cfgDefault envCycleFixture 0 [] "sess" [profileEquipItem]).result.success
      = true := by
  refine ⟨?_, ?_, ?_, ?_⟩
  · intro eqid lookup fuel visited cur hid hvis
    have hm : cur._id ∈ visited := by simpa using hvis
    simp [traceAux, hid, hm]
  · intro eqid lookup visited cur
    rfl
  · decide
  · decide

/-- C9 (witness): the cycle abort at a concrete revisited record. -/
theorem traceRootSlot_cycle_safe_witness :
    traceAux (some "E") cycleLookup 5 ["a"] itemCycleA = none :=
  traceRootSlot_cycle_safe.1 (some "E") cycleLookup 4 ["a"] itemCycleA
    (by decide) (by decide)

/-- C3 (counterexample): a snapshot record whose id already exists in the
target collection (and in `existingItemIds`) but whose resolved root slot is
known and excluded is skipped by the non-managed-slot check, which runs
BEFORE the duplicate check — it is counted in `nonManagedSkipped`, not in
`duplicatesSkipped`, refuting the claim that every such record is counted in
`duplicatesSkipped`. -/
theorem addSnapshotItems_dup_cex :
    (["W"] : List String).contains dupNonManagedItem._id = true ∧
    (addSnapshotItems [snapWeaponItem] [dupNonManagedItem] "E2" (some "E")
        ["holster"] [("W", "backpack")] ["W"]).2.2.1 = 0 ∧
    (addSnapshotItems [snapWeaponItem] [dupNonManagedItem] "E2" (some "E")
        ["holster"] [("W", "backpack")] ["W"]).2.2.2 = 1 ∧
    (addSnapshotItems [snapWeaponItem] [dupNonManagedItem] "E2" (some "E")
        ["holster"] [("W", "backpack")] ["W"]).1 = [snapWeaponItem] := by
  decide

/-- C3 (amended): provided `existingItemIds` covers the (truthy) ids of the
collection, `addSnapshotItems` never appends a record whose id already exists
— the appended suffix has pairwise-distinct ids, none of which pre-exists in
the id set or the collection — and every record that reaches the duplicate
check (i.e. passes the equipment-root, missing-field and slot checks) with an
already-present id is counted in `duplicatesSkipped`:
`duplicatesSkipped + itemsAdded` equals the number of records reaching that
check. -/
theorem addSnapshotItems_dedup (inv snapItems : List Item) (pe : String)
    (se : Option String) (inc : List String) (roots : List (String × String))
    (ex : List String)
    (h : ∀ it ∈ inv, it._id ≠ "" → ex.contains it._id = true) :
    ∃ new : List Item,
      (addSnapshotItems inv snapItems pe se inc roots ex).1 = inv ++ new ∧
      (addSnapshotItems inv snapItems pe se inc roots ex).2.1 = new.length ∧
      (new.map (fun it => it._id)).Nodup ∧
      (∀ it ∈ new, ex.contains it._id = false) ∧
      (∀ it ∈ new, ∀ j ∈ inv, j._id ≠ "" → j._id ≠ it._id) ∧
      (addSnapshotItems inv snapItems pe se inc roots ex).2.2.1 +
          (addSnapshotItems inv snapItems pe se inc roots ex).2.1 =
        (snapItems.filter (fun s => eligibleItem inc roots s)).length := by
  obtain ⟨new, dup, heq, hcnt, hnd, hexm, hsrc⟩ :=
    addLoop_spec pe se inc roots snapItems inv ex 0 0 0
  refine ⟨new, ?_, ?_, hnd, hexm, ?_, ?_⟩
  · rw [addSnapshotItems, heq]
  · rw [addSnapshotItems, heq]
    simp
  · intro it hm j hj hjne
    intro hcontra
    have hj' := h j hj hjne
    rw [hcontra] at hj'
    rw [hexm it hm] at hj'
    cases hj'
  · rw [addSnapshotItems, heq, ← hcnt]
    simp [Nat.add_comm]

/-- C3 (witness): a snapshot holding the same record twice appends it once;
the second copy is counted as a duplicate (`duplicates + added = 2`). -/
theorem addSnapshotItems_dedup_witness :
    (addSnapshotItems [profileEquipItem] [snapWeaponItem, snapWeaponItem] "E2"
        (some "E") [] [] ["E2"]).2.2.1 +
      (addSnapshotItems [profileEquipItem] [snapWeaponItem, snapWeaponItem] "E2"
        (some "E") [] [] ["E2"]).2.1 = 2 := by
  obtain ⟨new, -, -, -, -, -, hc⟩ :=
    addSnapshotItems_dedup [profileEquipItem] [snapWeaponItem, snapWeaponItem] "E2"
      (some "E") [] [] ["E2"] (by decide)
  have h2 : (([snapWeaponItem, snapWeaponItem] : List Item).filter
      (fun s => eligibleItem [] [] s)).length = 2 := by decide
  exact hc.trans h2

/-- C5 (counterexample): a snapshot record carrying the Equipment template is
skipped by the equipment-root exclusion BEFORE the slot check, so even though
its resolved root slot is known ("backpack") and not in the non-empty
`includedSlots`, it is not counted in `nonManagedSkipped` — refuting the
claim that every such record is counted there. -/
theorem addSnapshotItems_slot_cex :
    lookupPair [("N", "backpack")] equipTplNested._id = some "backpack" ∧
    (["holster"] : List String).contains "backpack" = false ∧
    (addSnapshotItems [profileEquipItem] [equipTplNested] "E2" (some "E")
        ["holster"] [("N", "backpack")] ["E2"]).2.2.2 = 0 ∧
    (addSnapshotItems [profileEquipItem] [equipTplNested] "E2" (some "E")
        ["holster"] [("N", "backpack")] ["E2"]).1 = [profileEquipItem] := by
  decide

/-- C5 (amended): when `includedSlots` is non-empty (and the root-slot map,
as built by `buildRootSlotMap`, has no empty slot values), every record
`addSnapshotItems` appends either has no resolvable root slot or its resolved
root slot is a member of `includedSlots`; and `nonManagedSkipped` counts
exactly the records that pass the equipment-root and missing-field checks and
whose resolved root slot is known and excluded. -/
theorem addSnapshotItems_slot_containment (inv snapItems : List Item) (pe : String)
    (se : Option String) (inc : List String) (roots : List (String × String))
    (ex : List String) (hinc : inc ≠ [])
    (hroots : ∀ pr ∈ roots, pr.2 ≠ "") :
    ∃ new : List Item,
      (addSnapshotItems inv snapItems pe se inc roots ex).1 = inv ++ new ∧
      (∀ it ∈ new, lookupPair roots it._id = none ∨
        ∃ r, lookupPair roots it._id = some r ∧ inc.contains r = true) ∧
      (addSnapshotItems inv snapItems pe se inc roots ex).2.2.2 =
        (snapItems.filter (fun s => slotSkippedItem inc roots s)).length := by
  obtain ⟨new, dup, heq, hcnt, hnd, hexm, hsrc⟩ :=
    addLoop_spec pe se inc roots snapItems inv ex 0 0 0
  refine ⟨new, ?_, ?_, ?_⟩
  · rw [addSnapshotItems, heq]
  · intro it hm
    obtain ⟨s, hs, he, rfl⟩ := hsrc it hm
    rw [createItemFromSnapshot_id]
    have hns : shouldSkipSlot inc roots s._id = false := by
      have := he
      simp only [eligibleItem, Bool.and_eq_true] at this
      simpa using this.2
    cases hl : lookupPair roots s._id with
    | none => exact Or.inl rfl
    | some r =>
      right
      refine ⟨r, rfl, ?_⟩
      rw [shouldSkipSlot, hl] at hns
      have hr : r ≠ "" := hroots (s._id, r) (lookupPair_mem roots s._id r hl)
      have hlen : inc.length > 0 := List.length_pos.mpr hinc
      simp only [Bool.and_eq_false_iff] at hns
      rcases hns with hns | hns
      · rcases hns with hns | hns
        · exact absurd (by simpa using hns) hr
        · exact absurd hlen (by simpa using hns)
      · simpa using hns
  · rw [addSnapshotItems, heq]
    simp

/-- C5 (witness): the containment at a concrete run — the holstered weapon is
appended and its resolved root slot lies in `includedSlots`. -/
theorem addSnapshotItems_slot_containment_witness :
    ∃ new : List Item,
      (addSnapshotItems [profileEquipItem] [snapWeaponItem] "E2" (some "E")
          ["holster"] [("W", "holster")] ["E2"]).1 = [profileEquipItem] ++ new ∧
      (∀ it ∈ new, lookupPair [("W", "holster")] it._id = none ∨
        ∃ r, lookupPair [("W", "holster")] it._id = some r ∧
          (["holster"] : List String).contains r = true) ∧
      (addSnapshotItems [profileEquipItem] [snapWeaponItem] "E2" (some "E")
          ["holster"] [("W", "holster")] ["E2"]).2.2.2 =
        (([snapWeaponItem] : List Item).filter
          (fun s => slotSkippedItem ["holster"] [("W", "holster")] s)).length :=
  addSnapshotItems_slot_containment [profileEquipItem] [snapWeaponItem] "E2"
    (some "E") ["holster"] [("W", "holster")] ["E2"] (by decide) (by decide)

/-- C2: `removeManagedSlotItems` drops exactly the ids in its removal set —
the survivors are the order-preserving filter of the collection (hence a
sublist) and the returned count is the number of records dropped; the removal
set contains every direct child of the equipment root whose slot is managed
under `isSlotManaged`, contains only records justified as a managed direct
child or as a child of a removed record, and — whenever the pass iteration
reached its fixpoint rather than the `maxParentTraversalDepth` cap, the cap
being non-fatal — is closed under descendance, so every transitive descendant
of a removed record is removed. -/
theorem removeManagedSlotItems_spec (items : List Item) (pe : String)
    (inc snapS emp : List String) (d : Nat) :
    (removeManagedSlotItems items pe inc snapS emp d).1 =
        items.filter
          (fun it => !((removalSet items pe inc snapS emp d).contains it._id)) ∧
    List.Sublist (removeManagedSlotItems items pe inc snapS emp d).1 items ∧
    (removeManagedSlotItems items pe inc snapS emp d).2 =
        (items.filter
          (fun it => (removalSet items pe inc snapS emp d).contains it._id)).length ∧
    (∀ it ∈ items, managedChildGuard pe inc snapS emp it = true →
        it._id ∈ removalSet items pe inc snapS emp d) ∧
    (∀ x ∈ removalSet items pe inc snapS emp d,
        ∃ it ∈ items, it._id = x ∧
          (managedChildGuard pe inc snapS emp it = true ∨
           ∃ p, it.parentId = some p ∧ p ∈ removalSet items pe inc snapS emp d)) ∧
    (closurePass items (removalSet items pe inc snapS emp d)
        = removalSet items pe inc snapS emp d →
      ∀ it ∈ items, ∀ p, it.parentId = some p → p ≠ "" →
        p ∈ removalSet items pe inc snapS emp d →
        it._id ∈ removalSet items pe inc snapS emp d) := by
  refine ⟨rfl, ?_, ?_, ?_, ?_, ?_⟩
  · exact List.filter_sublist items
  · show items.length -
        (items.filter
          (fun it => !((removalSet items pe inc snapS emp d).contains it._id))).length =
      (items.filter
        (fun it => (removalSet items pe inc snapS emp d).contains it._id)).length
    have h := length_filter_split
      (fun it => (removalSet items pe inc snapS emp d).contains it._id) items
    omega
  · intro it hm hg
    exact mem_closureIter items d _ it._id
      (foldl_setAdd_complete (managedChildGuard pe inc snapS emp)
        (fun it => it._id) items [] it hm hg)
  · intro x hx
    rcases closureIter_mem_sound items d _ x hx with hseed | ⟨it, hm, hid, p, hp, hps⟩
    · rcases foldl_setAdd_mem (managedChildGuard pe inc snapS emp)
        (fun it => it._id) items [] x hseed with h0 | ⟨it, hm, hf, hp⟩
      · exact absurd h0 (List.not_mem_nil x)
      · exact ⟨it, hm, hf, Or.inl hp⟩
    · exact ⟨it, hm, hid, Or.inr ⟨p, hp, hps⟩⟩
  · intro hfix it hm p hp hpne hpmem
    have hg := closurePass_fix items _ hfix it hm
    unfold descGuard at hg
    have h1 : jsTruthy it.parentId = true := by
      rw [hp]; simpa [jsTruthy] using hpne
    have h2 : (removalSet items pe inc snapS emp d).contains (it.parentId.getD "")
        = true := by
      rw [hp]
      exact (contains_mem_iff _ _).mpr hpmem
    rw [h1, h2] at hg
    simp only [Bool.true_and, Bool.not_eq_false'] at hg
    exact (contains_mem_iff _ _).mp hg

/-- C2 (witness): the managed holstered weapon is marked for removal in a
concrete profile. -/
theorem removeManagedSlotItems_spec_witness :
    holsterItem._id ∈ removalSet c2Fixture "E2" ["holster"] [] [] 20 :=
  (removeManagedSlotItems_spec c2Fixture "E2" ["holster"] [] [] 20).2.2.2.1
    holsterItem (by decide) (by decide)

/-- C1 (counterexample): a run that reaches the mutation phase and rolls back
leaves the collection NOT deep-equal to its pre-call state — the rollback
restores the deep-copied backup, whose per-item clone drops unknown
state-blob sub-fields, so a profile item carrying one comes back altered. -/
theorem tryRestore_rollback_cex :
    (tryRestore cfgDefault envThrowFixture 0 [] "sess" invFixture).result.success
        = false ∧
    (tryRestore cfgDefault envThrowFixture 0 [] "sess" invFixture).items
        ≠ invFixture := by
  constructor
  · decide
  · decide

/-- C1 (amended): whenever `tryRestore` returns a failed outcome, the record
collection after the call is deep-equal to its state before the call up to
unknown state-blob sub-fields: same ids, parents, slots, placements and all
declared state sub-fields. Failures before the backup leave the collection
untouched; a mutation failure restores the deep-copied backup, which differs
from the original only in that `deepCloneItemUpd` drops unknown sub-field
kinds. -/
theorem tryRestore_failed_preserves_collection (cfg : ModConfig) (env : RestoreEnv)
    (now : Int) (rmap : List (String × RateLimitEntry)) (sid : String)
    (items : List Item) :
    (tryRestore cfg env now rmap sid items).result.success = false →
    (tryRestore cfg env now rmap sid items).items.map stripItem
      = items.map stripItem := by
  intro h
  rcases tryRestore_shape cfg env now rmap sid items with ⟨-, -, -, -, hi | hi⟩ | hs
  · rw [hi]
  · rw [hi, createInventoryBackup, List.map_map]
    simp [Function.comp, stripItem_clone]
  · rw [hs] at h
    exact absurd h (by simp)

/-- C1 (witness): the amended preservation at the concrete rollback run. -/
theorem tryRestore_failed_preserves_collection_witness :
    (tryRestore cfgDefault envThrowFixture 0 [] "sess" invFixture).items.map stripItem
      = invFixture.map stripItem :=
  tryRestore_failed_preserves_collection cfgDefault envThrowFixture 0 [] "sess"
    invFixture (by decide)

/-- C10: every failed `RestoreResult` produced by `tryRestore` carries
`itemsAdded = 0`, `duplicatesSkipped = 0` and `nonManagedSkipped = 0` — all
failure paths build the result through `RestoreResult.failed`, which fixes
the three counters to zero, including the rollback path after partial
mutation work. -/
theorem tryRestore_failed_zero_counts (cfg : ModConfig) (env : RestoreEnv)
    (now : Int) (rmap : List (String × RateLimitEntry)) (sid : String)
    (items : List Item) :
    (tryRestore cfg env now rmap sid items).result.success = false →
    (tryRestore cfg env now rmap sid items).result.itemsAdded = 0 ∧
    (tryRestore cfg env now rmap sid items).result.duplicatesSkipped = 0 ∧
    (tryRestore cfg env now rmap sid items).result.nonManagedSkipped = 0 := by
  intro h
  rcases tryRestore_shape cfg env now rmap sid items with ⟨-, h1, h2, h3, -⟩ | hs
  · exact ⟨h1, h2, h3⟩
  · rw [hs] at h
    exact absurd h (by simp)

/-- C10 (witness): zero counters at a concrete failed (rollback) run. -/
theorem tryRestore_failed_zero_counts_witness :
    (tryRestore cfgDefault envThrowFixture 0 [] "sess" invFixture).result.itemsAdded
        = 0 ∧
    (tryRestore cfgDefault envThrowFixture 0 [] "sess"
        invFixture).result.duplicatesSkipped = 0 ∧
    (tryRestore cfgDefault envThrowFixture 0 [] "sess"
        invFixture).result.nonManagedSkipped = 0 :=
  tryRestore_failed_zero_counts cfgDefault envThrowFixture 0 [] "sess" invFixture
    (by decide)

/-- C8: deletion of the snapshot file is requested exactly after a successful
restoration or after the snapshot is judged oversized, unparseable as JSON,
structurally invalid, or version-incompatible; it is not requested when the
read fails after exhausting retries, when the Equipment container is missing,
or when a mutation error triggers rollback (nor on any pre-file failure). -/
theorem tryRestore_deletes_iff (cfg : ModConfig) (env : RestoreEnv) (now : Int)
    (rmap : List (String × RateLimitEntry)) (sid : String) (items : List Item) :
    (tryRestore cfg env now rmap sid items).snapshotDeleted =
      ((tryRestore cfg env now rmap sid items).result.success ||
        (isValidSessionId sid && (checkRateLimit cfg rmap sid now).1 &&
         env.pathOk && env.fileExists && snapshotJudgedBad env)) := by
  cases hval : isValidSessionId sid with
  | false => simp [tryRestore, RestoreResult.failed, hval]
  | true =>
    cases hrl : (checkRateLimit cfg rmap sid now).1 with
    | false => simp [tryRestore, RestoreResult.failed, hval, hrl]
    | true =>
      cases hpath : env.pathOk with
      | false => simp [tryRestore, RestoreResult.failed, hval, hrl, hpath]
      | true =>
        cases hex : env.fileExists with
        | false => simp [tryRestore, RestoreResult.failed, hval, hrl, hpath, hex]
        | true =>
          simp only [tryRestore, hval, hrl, hpath, hex, Bool.not_true,
            Bool.false_eq_true, if_false, Bool.true_and]
          cases hsz : env.sizeValid with
          | false => simp [restoreFromFile, snapshotJudgedBad, RestoreResult.failed, hsz]
          | true =>
            cases hread : env.readResult with
            | none =>
              simp [restoreFromFile, snapshotJudgedBad, RestoreResult.failed, hsz, hread]
            | some content =>
              cases hparse : env.parseResult with
              | none =>
                simp [restoreFromFile, snapshotJudgedBad, RestoreResult.failed, hsz,
                  hread, hparse]
              | some snap =>
                cases hv : validateSnapshot snap with
                | some err =>
                  simp [restoreFromFile, snapshotJudgedBad, RestoreResult.failed, hsz,
                    hread, hparse, hv]
                | none =>
                  cases hver : validateSnapshotVersion snap.modVersion with
                  | false =>
                    simp [restoreFromFile, snapshotJudgedBad, RestoreResult.failed,
                      hsz, hread, hparse, hv, hver]
                  | true =>
                    cases heq : jsTruthy (findEquipmentId items) with
                    | false =>
                      simp [restoreFromFile, snapshotJudgedBad, RestoreResult.failed,
                        hsz, hread, hparse, hv, hver, heq]
                    | true =>
                      cases hmut : env.mutationThrows with
                      | true =>
                        simp [restoreFromFile, snapshotJudgedBad, RestoreResult.failed,
                          hsz, hread, hparse, hv, hver, heq, hmut]
                      | false =>
                        simp [restoreFromFile, snapshotJudgedBad,
                          RestoreResult.succeeded, hsz, hread, hparse, hv, hver, heq,
                          hmut]

end KSG
